import Mathlib

/-
Verification of the wallet-classification pipeline of `src/analysis/teamSupply.js`
(walletfinderbot).  The JavaScript module is shallowly embedded: the pure decision
logic is translated to Lean functions, the asynchronous oracle calls
(`getSignaturesForAddress`, `checkInactivityPeriod`, `analyzeFunding`, `getAsset`,
`getHolders`) and the polls of the cooperative cancellation token are modelled as
explicit inputs recorded in environment structures, and a thrown JavaScript
exception is modelled as `Except.error` carrying the message string.

Arithmetic: the module configures bignumber.js with
`DECIMAL_PLACES: 18, ROUNDING_MODE: ROUND_DOWN`.  All BigNumber values occurring
in the pipeline are non-negative multiples of 10⁻¹⁸ (raw integer balances, one
18-digit truncating division, additions, and a multiplication by the integer
100), so a BigNumber is represented exactly as a natural number scaled by 10¹⁸.
`BigNumber.toNumber()` converts the decimal value to a JavaScript number, that
is, to the nearest IEEE-754 binary64 value (ties to even); this conversion is
modelled exactly for positive values in the normal range by `jsToNumber`.
-/

namespace TeamSupply

/-! ## BigNumber model: fixed-point naturals scaled by 10^18 -/

/-- Scale factor of the fixed-point representation: a natural number `x`
represents the decimal value `x / 10^18`. -/
def bnScale : ℕ := 10 ^ 18

/-- Embeds a raw integer (for example a balance or a total supply) as a
BigNumber, as `new BigNumber(k)` does. -/
def bnOfNat (k : ℕ) : ℕ := k * bnScale

/-- BigNumber `dividedBy` under the module configuration: the quotient is kept
with 18 fractional decimal digits and rounded down (toward zero; both operands
are non-negative here).  In bignumber.js a division by zero yields `Infinity`;
the model is only used under a positivity hypothesis on the divisor. -/
def bnDiv (x y : ℕ) : ℕ := x * bnScale / y

/-- BigNumber `plus` (exact). -/
def bnPlus (x y : ℕ) : ℕ := x + y

/-- BigNumber `multipliedBy` with an integer factor.  BigNumber multiplication
is exact; the pipeline only multiplies by the integer literal 100, for which the
scaled product stays on the 10⁻¹⁸ grid. -/
def bnMulNat (x k : ℕ) : ℕ := x * k

/-- Constant `SUPPLY_THRESHOLD`, the BigNumber 0.001 (0.1 percent). -/
def SUPPLY_THRESHOLD : ℕ := bnScale / 1000

/-! ## JavaScript number conversion (IEEE-754 binary64, round to nearest even)

`BigNumber.toNumber()` parses the decimal string of the value as a JavaScript
number.  For a positive value in the normal binary64 range this is the nearest
`m * 2 ^ (e - 52)` with `2^52 ≤ m < 2^53` (ties to even).  The model below
computes that value exactly as a rational. -/

/-- Fuel-driven floor of the binary logarithm (`log2F n n` is `Nat.log2 n`,
written with structural recursion so that concrete instances reduce in the
kernel). -/
def log2F : ℕ → ℕ → ℕ
  | 0, _ => 0
  | fuel + 1, n => if n < 2 then 0 else log2F fuel (n / 2) + 1

/-- Decides `2 ^ e ≤ num / den` for an integer exponent `e` and positive
naturals `num`, `den`. -/
def pow2le (e : ℤ) (num den : ℕ) : Bool :=
  if 0 ≤ e then decide (den * 2 ^ e.toNat ≤ num) else decide (den ≤ num * 2 ^ (-e).toNat)

/-- Floor of the binary logarithm of `num / den` (both positive): the unique
`e` with `2 ^ e ≤ num / den < 2 ^ (e + 1)`. -/
def floorLog2 (num den : ℕ) : ℤ :=
  let e0 : ℤ := (log2F num num : ℤ) - (log2F den den : ℤ)
  if pow2le (e0 + 1) num den then e0 + 1
  else if pow2le e0 num den then e0
  else e0 - 1

/-- Nearest integer to `a / b` (`b > 0`), ties to even. -/
def roundHalfEven (a b : ℕ) : ℕ :=
  let q := a / b
  let r := a % b
  if 2 * r < b then q
  else if b < 2 * r then q + 1
  else if q % 2 = 0 then q else q + 1

/-- Nearest binary64 value to `num / den` (both positive, result assumed in the
normal finite range). -/
def nearestFloat (num den : ℕ) : ℚ :=
  let e := floorLog2 num den
  let m :=
    if 0 ≤ 52 - e then roundHalfEven (num * 2 ^ (52 - e).toNat) den
    else roundHalfEven num (den * 2 ^ (e - 52).toNat)
  (m : ℚ) * (2 : ℚ) ^ (e - 52)

/-- Conversion `BigNumber.toNumber()` on the scaled representation: the value `x / 10^18`
as a JavaScript number. -/
def jsToNumber (x : ℕ) : ℚ :=
  if x = 0 then 0 else nearestFloat x bnScale

/-! ## Data model -/

/-- A holder as delivered by `getHolders`: address and raw integer balance. -/
structure Holder where
  address : String
  balance : ℕ
deriving DecidableEq, Repr

/-- Result of one wallet classification (`{...wallet, category, ...}`). -/
structure ClassifiedWallet where
  address : String
  balance : ℕ
  category : String
  daysSinceLastActivity : Option ℕ := none
  funderAddress : Option String := none
  fundingDetails : Option String := none
  error : Option String := none
deriving DecidableEq, Repr

/-- Structured result of the inactivity oracle `checkInactivityPeriod`. -/
structure InactivityResult where
  category : Option String := none
  isInactive : Bool := false
  daysSinceLastActivity : Option ℕ := none
deriving DecidableEq, Repr

/-- One entry of the funding oracle result (`analyzeFunding`). -/
structure FundingInfo where
  funderAddress : Option String := none
  fundingDetails : Option String := none
deriving DecidableEq, Repr

/-- Constant `KNOWN_LP_POOLS`: the fixed known-liquidity-pool address set. -/
def KNOWN_LP_POOLS : List String :=
  [ "5Q544fKrFoe6tsEbD7S8EmxGTJYAKtTVhAW5Q5pge4j1"
  , "6EF8rrecthR5Dkzon8Nwu78hRvfCKubJ14M5uBEwF6P"
  , "MoonCVVNZFSYkqNXP6bxHLPL6QQJiMagDL3qcqUQTrG"
  , "LBUZKhRxPF3XUpBCjp4YzTKgLccjZhTSDM9YuVaPwxo"
  , "5quBtoiQqxF9Jv6KYKctB59NT3gtJD2Y65kdnB1Uev3h"
  , "675kPX9MHTjS2zt1qfr1NYHuzeLXfQM9H24wFSUt1Mp8"
  , "CPMMoo8L3F4NbTegBCKVNunggL7H1ZpdTHKxQB5qKP1C"
  , "GpMZbSM2GgvTKHJirzeGfMFoaZ8UR2X7F4v8vHTvxFbL" ]

/-- Constant `FRESH_WALLET_THRESHOLD = 100`. -/
def FRESH_WALLET_THRESHOLD : ℕ := 100

/-- Constant `WALLET_ANALYSIS_TIMEOUT = 30000` milliseconds. -/
def WALLET_ANALYSIS_TIMEOUT : ℕ := 30000

/-- Constant `BATCH_SIZE = 5`. -/
def BATCH_SIZE : ℕ := 5

/-- Constant `BATCH_DELAY = 200` milliseconds. -/
def BATCH_DELAY : ℕ := 200

/-- Constant `TEAM_WALLET_CATEGORIES` (the teambot category was removed). -/
def TEAM_WALLET_CATEGORIES : List String :=
  ["Fresh", "Inactive", "No Token", "No ATA Transaction"]

/-- Predicate `isTeamWalletCategory`: membership in `TEAM_WALLET_CATEGORIES`. -/
def isTeamWalletCategory (category : String) : Bool :=
  TEAM_WALLET_CATEGORIES.contains category

/-- Message of the error thrown at every cancellation poll. -/
def cancelMsg : String := "Analysis cancelled by user"

/-! ## String containment (JavaScript `String.prototype.includes`) -/

/-- Containment of `pat` as a contiguous sublist. -/
def listIncludes (pat : List Char) : List Char → Bool
  | [] => pat.isEmpty
  | c :: rest => pat.isPrefixOf (c :: rest) || listIncludes pat rest

/-- JavaScript `s.includes(pat)`. -/
def strIncludes (s pat : String) : Bool :=
  listIncludes pat.toList s.toList

/-! ## WalletClassifier (`analyzeWallet` and its helpers) -/

/-- Environment of one `analyzeWallet` call: values of the cancellation-token
polls at its three poll sites, and outcomes of the oracle calls it may issue.
`signatures l` is the length of the list returned by
`getSignaturesForAddress` with limit `l`, and is `none` when the call throws. -/
structure ClassifyEnv where
  cancelledAtEntry : Bool := false
  signatures : ℕ → Option ℕ := fun _ => none
  cancelledBeforeInactivity : Bool := false
  inactivity : Except String (Option InactivityResult) := .ok none
  cancelledBeforeFunding : Bool := false
  funding : Except String (List FundingInfo) := .ok []

/-- Function `hasExcessiveTransactions`: queries the signature count with limit 1001 and
reports whether it reached 1000; a failing lookup defaults to `false`. -/
def hasExcessiveTransactions (signatures : ℕ → Option ℕ) : Bool :=
  match signatures 1001 with
  | none => false
  | some n => decide (1000 ≤ n)

/-- Function `isFreshWallet`: queries the signature count with limit
`FRESH_WALLET_THRESHOLD + 1` and reports whether it stayed below the threshold;
a failing lookup defaults to `false`. -/
def isFreshWallet (signatures : ℕ → Option ℕ) : Bool :=
  match signatures (FRESH_WALLET_THRESHOLD + 1) with
  | none => false
  | some n => decide (n < FRESH_WALLET_THRESHOLD)

/-- Mapping of a structured inactivity-oracle result to a category and an
optional inactivity age (the `if (inactivityCheck)` cascade; a null result
leaves the category `Normal`). -/
def inactivityCategory (r : Option InactivityResult) : String × Option ℕ :=
  match r with
  | none => ("Normal", none)
  | some ic =>
    if ic.category = some "No Token" then ("No Token", none)
    else if ic.category = some "No ATA Transaction" then ("No ATA Transaction", none)
    else if ic.isInactive then ("Inactive", ic.daysSinceLastActivity)
    else ("Normal", none)

/-- Category and inactivity age decided by the freshness and inactivity steps
for a non-excessive wallet.  The cancellation poll before the inactivity call
sits inside the same `try` as the call, so its throw is caught by
`catch (inactivityError)` and swallowed exactly like an oracle exception,
leaving the category `Normal`. -/
def freshnessAndInactivity (env : ClassifyEnv) : String × Option ℕ :=
  if isFreshWallet env.signatures then ("Fresh", none)
  else if env.cancelledBeforeInactivity then ("Normal", none)
  else
    match env.inactivity with
    | .error _ => ("Normal", none)
    | .ok r => inactivityCategory r

/-- The body of `analyzeWallet` after the excessive-activity short-circuit:
freshness, inactivity, the cancellation poll before funding (whose throw
escapes this body), and the funding enrichment whose exceptions are swallowed. -/
def classifyRest (w : Holder) (env : ClassifyEnv) : Except String ClassifiedWallet :=
  let cd := freshnessAndInactivity env
  if env.cancelledBeforeFunding then .error cancelMsg
  else
    match env.funding with
    | .ok (f :: _) =>
      .ok { address := w.address, balance := w.balance, category := cd.1,
            daysSinceLastActivity := cd.2, funderAddress := f.funderAddress,
            fundingDetails := f.fundingDetails }
    | _ =>
      .ok { address := w.address, balance := w.balance, category := cd.1,
            daysSinceLastActivity := cd.2, funderAddress := none,
            fundingDetails := none }

/-- The `try` block of `analyzeWallet`: excessive-activity short-circuit first,
then the rest of the pipeline. -/
def analyzeWalletBody (w : Holder) (env : ClassifyEnv) : Except String ClassifiedWallet :=
  if hasExcessiveTransactions env.signatures then
    .ok { address := w.address, balance := w.balance, category := "Normal",
          daysSinceLastActivity := none, funderAddress := none,
          fundingDetails := none }
  else classifyRest w env

/-- Function `analyzeWallet`: the entry cancellation poll sits before the `try`, so its
throw propagates; any error escaping the body is re-thrown when its message
contains the substring `cancelled` and is otherwise converted to a wallet entry
with category `Error`. -/
def analyzeWallet (w : Holder) (env : ClassifyEnv) : Except String ClassifiedWallet :=
  if env.cancelledAtEntry then .error cancelMsg
  else
    match analyzeWalletBody w env with
    | .ok cw => .ok cw
    | .error e =>
      if strIncludes e "cancelled" then .error e
      else .ok { address := w.address, balance := w.balance, category := "Error",
                 error := some e }

/-! ## BatchScheduler (`analyzeWalletsWithTimeout`) -/

/-- Per-wallet scheduler environment: the cancellation poll at the top of
`analyzeWalletWithTimeout` (it sits outside the `try`, so its throw escapes the
per-wallet handler), the outcome of the `Promise.race` against the 30 s timer
(`timedOut` is true when the timer settles first), and the classification
environment. -/
structure WalletEnv where
  cancelledBeforeWallet : Bool := false
  timedOut : Bool := false
  classify : ClassifyEnv := {}

/-- Scheduler environment: one `WalletEnv` for each global wallet index and the
value of the cancellation poll performed before the batch starting at each
offset. -/
structure SchedEnv where
  wallet : ℕ → WalletEnv := fun _ => {}
  cancelledBeforeBatch : ℕ → Bool := fun _ => false

/-- A wallet entry carrying category `Error` and an error message
(the spread of the wallet with category `Error` and the message). -/
def errorWallet (w : Holder) (msg : String) : ClassifiedWallet :=
  { address := w.address, balance := w.balance, category := "Error", error := some msg }

/-- Message of the per-wallet timeout rejection. -/
def timeoutMsg (w : Holder) : String :=
  "Wallet analysis timeout for " ++ w.address.take 8 ++ "..."

/-- Function `analyzeWalletWithTimeout`: poll the token (escaping throw), then race the
classification against the timer; every rejection of the race, including a
cancellation thrown inside the classification, is caught and converted to a
wallet entry with category `Error`. -/
def analyzeWalletWithTimeout (w : Holder) (env : WalletEnv) : Except String ClassifiedWallet :=
  if env.cancelledBeforeWallet then .error cancelMsg
  else if env.timedOut then .ok (errorWallet w (timeoutMsg w))
  else
    match analyzeWallet w env.classify with
    | .ok cw => .ok cw
    | .error e => .ok (errorWallet w e)

/-- The wallet entry recorded for a wallet whose `analyzeWalletWithTimeout`
call resolves (that is, whose pre-wallet poll does not throw). -/
def walletOutcome (w : Holder) (env : WalletEnv) : ClassifiedWallet :=
  if env.timedOut then errorWallet w (timeoutMsg w)
  else
    match analyzeWallet w env.classify with
    | .ok cw => cw
    | .error e => errorWallet w e

/-- Join `Promise.all` over one batch: each wallet at global index `i + k` is run
through `analyzeWalletWithTimeout`; the first escaping rejection rejects the
join. -/
def mapBatch (env : SchedEnv) : List Holder → ℕ → Except String (List ClassifiedWallet)
  | [], _ => .ok []
  | w :: ws, i =>
    match analyzeWalletWithTimeout w (env.wallet i) with
    | .error e => .error e
    | .ok cw =>
      match mapBatch env ws (i + 1) with
      | .error e => .error e
      | .ok rest => .ok (cw :: rest)

/-- The batch loop of `analyzeWalletsWithTimeout`: before each batch of
`BATCH_SIZE` wallets the token is polled (throwing `cancelMsg` when cancelled),
the batch is joined, and its results are appended in order.  The inter-batch
pacing delay does not affect values. -/
def runBatches (env : SchedEnv) : List Holder → ℕ → Except String (List ClassifiedWallet)
  | [], _ => .ok []
  | w :: ws, i =>
    if env.cancelledBeforeBatch i then .error cancelMsg
    else
      match mapBatch env ((w :: ws).take BATCH_SIZE) i with
      | .error e => .error e
      | .ok rs =>
        match runBatches env ((w :: ws).drop BATCH_SIZE) (i + BATCH_SIZE) with
        | .error e => .error e
        | .ok rest => .ok (rs ++ rest)
termination_by ws => ws.length
decreasing_by simp [BATCH_SIZE]; omega

/-! ## SupplyFilter -/

/-- The predicate of step 3 of `analyzeTeamSupply`: known liquidity pools are
skipped, and the exact 18-digit truncating ratio of balance to total supply
must reach `SUPPLY_THRESHOLD`. -/
def significantFilter (totalSupply : ℕ) (h : Holder) : Bool :=
  if KNOWN_LP_POOLS.contains h.address then false
  else SUPPLY_THRESHOLD ≤ bnDiv (bnOfNat h.balance) (bnOfNat totalSupply)

/-- The significant-holder list kept for analysis. -/
def significantHoldersOf (holders : List Holder) (totalSupply : ℕ) : List Holder :=
  holders.filter (significantFilter totalSupply)

/-! ## SupplyAggregator and orchestrator (`analyzeTeamSupply`) -/

/-- Token info extracted from the `getAsset` response. -/
structure AssetInfo where
  totalSupply : ℕ
  symbol : String := ""
  name : String := ""
  decimals : ℕ := 0
deriving DecidableEq, Repr

/-- The `tokenInfo` record embedded in `scanData`. -/
structure TokenInfoOut where
  totalSupply : ℕ
  symbol : String
  name : String
  decimals : ℕ
  address : String
deriving DecidableEq, Repr

/-- One reshaped team wallet of the `teamWallets` projection. -/
structure TeamWallet where
  address : String
  balance : String
  percentage : ℚ
  category : String
  funderAddress : Option String
  fundingDetails : Option String
deriving DecidableEq, Repr

/-- The `scanData` view of a successful run. -/
structure ScanData where
  tokenInfo : TokenInfoOut
  analyzedWallets : List ClassifiedWallet
  teamWallets : List TeamWallet
  totalSupplyControlled : ℚ
  tokenAddress : String
deriving DecidableEq, Repr

/-- The `trackingInfo` view of a successful run. -/
structure TrackingInfo where
  tokenAddress : String
  tokenSymbol : String
  totalSupply : ℕ
  decimals : ℕ
  totalSupplyControlled : ℚ
  teamWallets : List TeamWallet
  allWalletsDetails : List ClassifiedWallet
deriving DecidableEq, Repr

/-- The value returned by a successful `analyzeTeamSupply` run. -/
structure AnalysisResult where
  scanData : ScanData
  trackingInfo : TrackingInfo
deriving DecidableEq, Repr

/-- Reshaping of one analyzed wallet into a `teamWallets` entry
(`percentage = balance / totalSupply * 100` via BigNumber and `toNumber`). -/
def teamWalletOf (totalSupply : ℕ) (w : ClassifiedWallet) : TeamWallet :=
  { address := w.address
  , balance := Nat.repr w.balance
  , percentage := jsToNumber (bnMulNat (bnDiv (bnOfNat w.balance) (bnOfNat totalSupply)) 100)
  , category := w.category
  , funderAddress := w.funderAddress
  , fundingDetails := w.fundingDetails }

/-- Step 6 of `analyzeTeamSupply`: the BigNumber sum of the balances of the
wallets whose category is a team category (scaled representation). -/
def teamSupplyHeld (ws : List ClassifiedWallet) : ℕ :=
  (ws.filter (fun w => isTeamWalletCategory w.category)).foldl
    (fun acc w => bnPlus acc (bnOfNat w.balance)) 0

/-- Value `totalSupplyControlled = teamSupplyHeld / totalSupply * 100`, converted by
`toNumber`. -/
def totalSupplyControlledOf (ws : List ClassifiedWallet) (totalSupply : ℕ) : ℚ :=
  jsToNumber (bnMulNat (bnDiv (teamSupplyHeld ws) (bnOfNat totalSupply)) 100)

/-- Environment of one `analyzeTeamSupply` run: the `getAsset` response (`none`
models a missing token), the `getHolders` response, the values of the six
`checkCancellation()` polls of the orchestrator in source order, the value of
the poll inside the final `catch`, and the scheduler environment. -/
structure RunEnv where
  assetInfo : Option AssetInfo := none
  holders : List Holder := []
  cancelAtStart : Bool := false
  cancelAfterToken : Bool := false
  cancelBeforeFilter : Bool := false
  cancelBeforeAnalyze : Bool := false
  cancelBeforeTeamFilter : Bool := false
  cancelBeforeSupplyCalc : Bool := false
  cancelledInCatch : Bool := false
  sched : SchedEnv := {}

/-- The `try` block of `analyzeTeamSupply`: token info, holders, filter,
scheduler, team-wallet projection and supply aggregation, in source order, with
the six cancellation polls interleaved. -/
def analyzeTeamSupplyBody (tokenAddress : String) (env : RunEnv) :
    Except String AnalysisResult :=
  if env.cancelAtStart then .error cancelMsg
  else
    match env.assetInfo with
    | none => .error "No token info found"
    | some asset =>
      if env.cancelAfterToken then .error cancelMsg
      else if env.cancelBeforeFilter then .error cancelMsg
      else if env.cancelBeforeAnalyze then .error cancelMsg
      else
        match runBatches env.sched (significantHoldersOf env.holders asset.totalSupply) 0 with
        | .error e => .error e
        | .ok analyzedWallets =>
          if env.cancelBeforeTeamFilter then .error cancelMsg
          else if env.cancelBeforeSupplyCalc then .error cancelMsg
          else
            .ok
              { scanData :=
                  { tokenInfo :=
                      { totalSupply := asset.totalSupply, symbol := asset.symbol,
                        name := asset.name, decimals := asset.decimals,
                        address := tokenAddress }
                  , analyzedWallets := analyzedWallets
                  , teamWallets :=
                      (analyzedWallets.filter (fun w => isTeamWalletCategory w.category)).map
                        (teamWalletOf asset.totalSupply)
                  , totalSupplyControlled := totalSupplyControlledOf analyzedWallets asset.totalSupply
                  , tokenAddress := tokenAddress }
              , trackingInfo :=
                  { tokenAddress := tokenAddress
                  , tokenSymbol := asset.symbol
                  , totalSupply := asset.totalSupply
                  , decimals := asset.decimals
                  , totalSupplyControlled := totalSupplyControlledOf analyzedWallets asset.totalSupply
                  , teamWallets :=
                      (analyzedWallets.filter (fun w => isTeamWalletCategory w.category)).map
                        (teamWalletOf asset.totalSupply)
                  , allWalletsDetails := analyzedWallets } }

/-- Function `analyzeTeamSupply`: the body wrapped in the final `catch`, which replaces
any error by the cancellation error when the token reports cancelled at catch
time and otherwise rethrows. -/
def analyzeTeamSupply (tokenAddress : String) (env : RunEnv) :
    Except String AnalysisResult :=
  match analyzeTeamSupplyBody tokenAddress env with
  | .ok r => .ok r
  | .error e => if env.cancelledInCatch then .error cancelMsg else .error e

/-! ## Spec-side derived definitions -/

/-- Sum of the raw balances of the wallets whose category is a team category
(the specification formula for the numerator of `totalSupplyControlled`). -/
def teamBalanceSum (ws : List ClassifiedWallet) : ℕ :=
  ((ws.filter (fun w => isTeamWalletCategory w.category)).map (fun w => w.balance)).sum

/-- The claim of C10, stated as a proposition: with an uncancelled token, some
input makes `analyzeWallet` re-raise an exception whose message contains the
substring `cancelled` instead of yielding a category-`Error` wallet. -/
def unrelatedCancelledRethrow : Prop :=
  ∃ (w : Holder) (env : ClassifyEnv) (e : String),
    env.cancelledAtEntry = false ∧ env.cancelledBeforeInactivity = false ∧
    env.cancelledBeforeFunding = false ∧
    strIncludes e "cancelled" = true ∧
    analyzeWallet w env = .error e

/-! ## Classifier lemmas -/

/-- The funder fields attached by the funding step for a given funding-oracle
outcome: a successful non-empty result contributes its first entry, any other
outcome contributes nulls. -/
def fundingFieldsOf : Except String (List FundingInfo) → Option String × Option String
  | .ok (f :: _) => (f.funderAddress, f.fundingDetails)
  | _ => (none, none)

theorem classifyRest_eq (w : Holder) (env : ClassifyEnv)
    (hf : env.cancelledBeforeFunding = false) :
    classifyRest w env =
      .ok { address := w.address, balance := w.balance,
            category := (freshnessAndInactivity env).1,
            daysSinceLastActivity := (freshnessAndInactivity env).2,
            funderAddress := (fundingFieldsOf env.funding).1,
            fundingDetails := (fundingFieldsOf env.funding).2 } := by
  unfold classifyRest fundingFieldsOf
  rw [hf]
  rcases env.funding with e | fs
  · simp
  · rcases fs with _ | ⟨f, rest⟩ <;> simp

theorem analyzeWalletBody_error_eq (w : Holder) (env : ClassifyEnv) (e : String)
    (h : analyzeWalletBody w env = .error e) :
    e = cancelMsg ∧ env.cancelledBeforeFunding = true := by
  rcases hcf : env.cancelledBeforeFunding with _ | _
  · exfalso
    unfold analyzeWalletBody at h
    rcases hex : hasExcessiveTransactions env.signatures with _ | _ <;> simp [hex] at h
    rw [classifyRest_eq w env hcf] at h
    simp at h
  · refine ⟨?_, rfl⟩
    unfold analyzeWalletBody classifyRest at h
    rcases hex : hasExcessiveTransactions env.signatures with _ | _ <;> simp [hex, hcf] at h
    exact h.symm

theorem analyzeWallet_ok_of_uncancelled (w : Holder) (env : ClassifyEnv)
    (h1 : env.cancelledAtEntry = false) (h3 : env.cancelledBeforeFunding = false) :
    ∃ cw, analyzeWallet w env = .ok cw := by
  unfold analyzeWallet
  simp only [h1, Bool.false_eq_true, if_false]
  rcases hb : analyzeWalletBody w env with e | cw
  · exact absurd (analyzeWalletBody_error_eq w env e hb).2 (by rw [h3]; simp)
  · exact ⟨cw, rfl⟩

theorem analyzeWallet_preserves (w : Holder) (env : ClassifyEnv)
    (cw : ClassifiedWallet) (h : analyzeWallet w env = .ok cw) :
    cw.address = w.address ∧ cw.balance = w.balance := by
  unfold analyzeWallet at h
  rcases hce : env.cancelledAtEntry with _ | _ <;> simp [hce] at h
  rcases hb : analyzeWalletBody w env with e | cw' <;> rw [hb] at h
  · rcases hic : strIncludes e "cancelled" with _ | _ <;> simp [hic] at h
    rw [← h]
    exact ⟨rfl, rfl⟩
  · have hb' := hb
    unfold analyzeWalletBody at hb'
    simp only [Except.ok.injEq] at h
    subst h
    rcases hex : hasExcessiveTransactions env.signatures with _ | _ <;> simp [hex] at hb'
    · rcases hcf : env.cancelledBeforeFunding with _ | _
      · rw [classifyRest_eq w env hcf] at hb'
        simp only [Except.ok.injEq] at hb'
        rw [← hb']
        exact ⟨rfl, rfl⟩
      · unfold classifyRest at hb'
        simp [hcf] at hb'
    · rw [← hb']
      exact ⟨rfl, rfl⟩

/-! ## Claim C5 -/

/-- C5: a wallet whose signature count queried with limit 1001 reaches 1000 is
classified `Normal` immediately, with null inactivity age and null funder
fields, regardless of every other oracle signal; and when the signature lookup
itself throws, the wallet is treated as not excessive and the classification
proceeds with the remaining pipeline. -/
theorem c5_excessive_short_circuit (w : Holder) (env : ClassifyEnv) :
    (env.cancelledAtEntry = false → ∀ n, env.signatures 1001 = some n → 1000 ≤ n →
      analyzeWallet w env =
        .ok { address := w.address, balance := w.balance, category := "Normal",
              daysSinceLastActivity := none, funderAddress := none,
              fundingDetails := none, error := none })
    ∧ (env.signatures 1001 = none →
        hasExcessiveTransactions env.signatures = false ∧
        analyzeWalletBody w env = classifyRest w env) := by
  constructor
  · intro hc n hs hn
    have hex : hasExcessiveTransactions env.signatures = true := by
      unfold hasExcessiveTransactions
      rw [hs]
      simpa using hn
    unfold analyzeWallet analyzeWalletBody
    rw [hc, hex]
    simp
  · intro hs
    have hex : hasExcessiveTransactions env.signatures = false := by
      unfold hasExcessiveTransactions
      rw [hs]
    refine ⟨hex, ?_⟩
    unfold analyzeWalletBody
    rw [hex]
    simp

/-- Witness for C5 at concrete inputs: a wallet with exactly 1000 signatures is
short-circuited to `Normal`, and a wallet whose signature lookup throws is
treated as not excessive. -/
theorem c5_witness :
    (analyzeWallet (Holder.mk "wallet-A" 42)
        { signatures := fun _ => some 1000,
          inactivity := .ok (some { category := some "No Token" }),
          funding := .ok [{ funderAddress := some "F" }] } =
      .ok { address := "wallet-A", balance := 42, category := "Normal",
            daysSinceLastActivity := none, funderAddress := none,
            fundingDetails := none, error := none })
    ∧ (hasExcessiveTransactions (fun _ => none) = false ∧
       analyzeWalletBody (Holder.mk "wallet-B" 7) { signatures := fun _ => none } =
         classifyRest (Holder.mk "wallet-B" 7) { signatures := fun _ => none }) :=
  ⟨(c5_excessive_short_circuit (Holder.mk "wallet-A" 42)
      { signatures := fun _ => some 1000,
        inactivity := .ok (some { category := some "No Token" }),
        funding := .ok [{ funderAddress := some "F" }] }).1 rfl 1000 rfl (by norm_num),
   (c5_excessive_short_circuit (Holder.mk "wallet-B" 7)
      { signatures := fun _ => none }).2 rfl⟩

/-! ## Claim C6 -/

/-- C6: for a non-fresh, non-excessive wallet whose inactivity-oracle call
throws (with any message, in particular one containing No Token), the
exception is swallowed, the category stays `Normal` (never `Error`), and the
classification continues to the funding step, whose outcome still determines
the funder fields of the returned wallet. -/
theorem c6_inactivity_exception_swallowed (w : Holder) (env : ClassifyEnv) (e : String)
    (h1 : env.cancelledAtEntry = false)
    (h2 : env.cancelledBeforeInactivity = false)
    (h3 : env.cancelledBeforeFunding = false)
    (hex : hasExcessiveTransactions env.signatures = false)
    (hfr : isFreshWallet env.signatures = false)
    (hin : env.inactivity = .error e) :
    analyzeWallet w env =
      .ok { address := w.address, balance := w.balance, category := "Normal",
            daysSinceLastActivity := none,
            funderAddress := (fundingFieldsOf env.funding).1,
            fundingDetails := (fundingFieldsOf env.funding).2, error := none } := by
  have hfi : freshnessAndInactivity env = ("Normal", none) := by
    unfold freshnessAndInactivity
    rw [hfr, h2, hin]
    simp
  unfold analyzeWallet analyzeWalletBody
  rw [h1, hex, classifyRest_eq w env h3, hfi]
  simp

/-- Witness for C6: the inactivity oracle throws an error containing
No Token, yet the wallet comes back `Normal` with the funder fields produced
by the funding step. -/
theorem c6_witness :
    analyzeWallet (Holder.mk "wallet-C" 9)
        { signatures := fun _ => some 500,
          inactivity := .error "No Token account found",
          funding := .ok [{ funderAddress := some "FUND", fundingDetails := some "D" }] } =
      .ok { address := "wallet-C", balance := 9, category := "Normal",
            daysSinceLastActivity := none, funderAddress := some "FUND",
            fundingDetails := some "D", error := none } :=
  c6_inactivity_exception_swallowed (Holder.mk "wallet-C" 9) _ "No Token account found"
    rfl rfl rfl rfl rfl rfl

/-! ## Claim C4 -/

/-- C4 counterexample: the cancellation token reports cancelled at the entry
poll of `analyzeWallet` (a cancellation raised during classification, which
`analyzeWallet` propagates), yet `analyzeWalletWithTimeout` catches it and
converts it into a wallet entry with category `Error` instead of letting it
propagate to the caller. -/
theorem c4_counterexample :
    (WalletEnv.mk false false { cancelledAtEntry := true }).classify.cancelledAtEntry = true ∧
    analyzeWallet (Holder.mk "walletXYZ" 7) { cancelledAtEntry := true } = .error cancelMsg ∧
    analyzeWalletWithTimeout (Holder.mk "walletXYZ" 7)
        (WalletEnv.mk false false { cancelledAtEntry := true }) =
      .ok (errorWallet (Holder.mk "walletXYZ" 7) cancelMsg) ∧
    (errorWallet (Holder.mk "walletXYZ" 7) cancelMsg).category = "Error" :=
  ⟨rfl, rfl, rfl, rfl⟩

/-- C4 amended: only a cancellation observed at the scheduler-level poll
performed before the race of a wallet begins escapes the per-wallet layer
unmodified; a cancellation error raised inside the classification itself is
caught by the per-wallet catch-all and converted into a wallet entry with
category `Error` carrying the cancellation message. -/
theorem c4_cancellation_handling (w : Holder) (env : WalletEnv) :
    (env.cancelledBeforeWallet = true → analyzeWalletWithTimeout w env = .error cancelMsg)
    ∧ (env.cancelledBeforeWallet = false → env.timedOut = false →
        analyzeWallet w env.classify = .error cancelMsg →
        analyzeWalletWithTimeout w env = .ok (errorWallet w cancelMsg)) := by
  constructor
  · intro h
    unfold analyzeWalletWithTimeout
    simp [h]
  · intro h1 h2 h3
    unfold analyzeWalletWithTimeout
    simp [h1, h2, h3]

/-- Witness for the amended C4 at concrete inputs: both the escaping
scheduler-poll cancellation and the converted in-classification cancellation. -/
theorem c4_witness :
    analyzeWalletWithTimeout (Holder.mk "walletU" 3)
        (WalletEnv.mk true false {}) = .error cancelMsg ∧
    analyzeWalletWithTimeout (Holder.mk "walletV" 4)
        (WalletEnv.mk false false { cancelledAtEntry := true }) =
      .ok (errorWallet (Holder.mk "walletV" 4) cancelMsg) :=
  ⟨(c4_cancellation_handling (Holder.mk "walletU" 3) (WalletEnv.mk true false {})).1 rfl,
   (c4_cancellation_handling (Holder.mk "walletV" 4)
      (WalletEnv.mk false false { cancelledAtEntry := true })).2 rfl rfl rfl⟩

/-! ## Claim C10 -/

/-- C10 counterexample (negation of the claimed behavior): whenever the token
is uncancelled at all three poll sites of `analyzeWallet`, no exception at all
escapes `analyzeWallet`, so no unrelated exception containing the substring
cancelled is ever re-raised; every oracle exception is handled by the inner
handlers. -/
theorem c10_counterexample : ¬ unrelatedCancelledRethrow := by
  rintro ⟨w, env, e, h1, h2, h3, hsub, hthrow⟩
  obtain ⟨cw, hok⟩ := analyzeWallet_ok_of_uncancelled w env h1 h3
  rw [hok] at hthrow
  exact absurd hthrow (by simp)

/-- C10 amended: the outer handler of `analyzeWallet` distinguishes
cancellation by the substring cancelled in the error message, but the only
error that can escape the body is the genuine cancellation throw of the
pre-funding poll (whose message is the cancellation message); consequently,
when the token is uncancelled, `analyzeWallet` always returns a wallet entry
and never re-raises. -/
theorem c10_substring_mechanism (w : Holder) (env : ClassifyEnv) :
    (∀ e, analyzeWalletBody w env = .error e →
      e = cancelMsg ∧ strIncludes e "cancelled" = true ∧
      analyzeWallet w env = if env.cancelledAtEntry then .error cancelMsg else .error e)
    ∧ (env.cancelledAtEntry = false → env.cancelledBeforeFunding = false →
        ∃ cw, analyzeWallet w env = .ok cw) := by
  constructor
  · intro e he
    obtain ⟨hmsg, _⟩ := analyzeWalletBody_error_eq w env e he
    subst hmsg
    refine ⟨rfl, by decide, ?_⟩
    unfold analyzeWallet
    rcases hce : env.cancelledAtEntry with _ | _ <;> simp [hce, he]
    decide
  · exact analyzeWallet_ok_of_uncancelled w env

/-- Witness for the amended C10 at concrete inputs: the genuine pre-funding
cancellation throw is re-raised by the substring test, and an uncancelled
wallet always classifies to a wallet entry. -/
theorem c10_witness :
    (cancelMsg = cancelMsg ∧ strIncludes cancelMsg "cancelled" = true ∧
      analyzeWallet (Holder.mk "walletW" 5)
          { signatures := fun _ => some 500, cancelledBeforeFunding := true } =
        if ({ signatures := fun _ => some 500,
              cancelledBeforeFunding := true : ClassifyEnv }).cancelledAtEntry
        then .error cancelMsg else .error cancelMsg)
    ∧ (∃ cw, analyzeWallet (Holder.mk "walletW" 5)
        { signatures := fun _ => some 500,
          inactivity := .error "request cancelled upstream" } = .ok cw) :=
  ⟨(c10_substring_mechanism (Holder.mk "walletW" 5)
      { signatures := fun _ => some 500, cancelledBeforeFunding := true }).1 cancelMsg rfl,
   (c10_substring_mechanism (Holder.mk "walletW" 5)
      { signatures := fun _ => some 500,
        inactivity := .error "request cancelled upstream" }).2 rfl rfl⟩

/-! ## Scheduler lemmas -/

/-- The list of per-wallet outcomes the scheduler records when no
scheduler-level poll throws: wallet at global index `i + k` yields
`walletOutcome` of its environment. -/
def mapOutcomes (env : SchedEnv) : List Holder → ℕ → List ClassifiedWallet
  | [], _ => []
  | w :: ws, i => walletOutcome w (env.wallet i) :: mapOutcomes env ws (i + 1)

theorem analyzeWalletWithTimeout_ok (w : Holder) (env : WalletEnv)
    (h : env.cancelledBeforeWallet = false) :
    analyzeWalletWithTimeout w env = .ok (walletOutcome w env) := by
  unfold analyzeWalletWithTimeout walletOutcome
  simp only [h, Bool.false_eq_true, if_false]
  rcases ht : env.timedOut with _ | _ <;> simp [ht]
  rcases ha : analyzeWallet w env.classify with e | cw <;> simp [ha]

theorem mapOutcomes_length (env : SchedEnv) (ws : List Holder) (i : ℕ) :
    (mapOutcomes env ws i).length = ws.length := by
  induction ws generalizing i with
  | nil => rfl
  | cons w rest ih => simp [mapOutcomes, ih]

theorem mapOutcomes_append (env : SchedEnv) (l1 l2 : List Holder) (i : ℕ) :
    mapOutcomes env (l1 ++ l2) i = mapOutcomes env l1 i ++ mapOutcomes env l2 (i + l1.length) := by
  induction l1 generalizing i with
  | nil => simp [mapOutcomes]
  | cons w rest ih =>
    simp only [List.cons_append, mapOutcomes, List.append_eq]
    rw [ih (i + 1)]
    have h : i + 1 + rest.length = i + (rest.length + 1) := by omega
    simp [h]

theorem mapOutcomes_get (env : SchedEnv) (ws : List Holder) (i : ℕ) :
    ∀ (k : ℕ) (hk : k < ws.length) (hk2 : k < (mapOutcomes env ws i).length),
      (mapOutcomes env ws i).get ⟨k, hk2⟩ = walletOutcome (ws.get ⟨k, hk⟩) (env.wallet (i + k)) := by
  induction ws generalizing i with
  | nil => intro k hk; exact absurd hk (by simp)
  | cons w rest ih =>
    intro k hk hk2
    rcases k with _ | k
    · simp [mapOutcomes]
    · simp only [mapOutcomes, List.get_cons_succ]
      rw [ih (i + 1) k (by simpa using hk) (by simpa [mapOutcomes_length] using hk)]
      ring_nf

theorem mapBatch_ok (env : SchedEnv)
    (hw : ∀ j, (env.wallet j).cancelledBeforeWallet = false) :
    ∀ (ws : List Holder) (i : ℕ), mapBatch env ws i = .ok (mapOutcomes env ws i) := by
  intro ws
  induction ws with
  | nil => intro i; rfl
  | cons w rest ih =>
    intro i
    unfold mapBatch
    rw [analyzeWalletWithTimeout_ok w (env.wallet i) (hw i), ih (i + 1)]
    rfl

theorem runBatches_ok (env : SchedEnv)
    (hb : ∀ j, env.cancelledBeforeBatch j = false)
    (hw : ∀ j, (env.wallet j).cancelledBeforeWallet = false) :
    ∀ (n : ℕ) (ws : List Holder), ws.length ≤ n → ∀ i,
      runBatches env ws i = .ok (mapOutcomes env ws i) := by
  intro n
  induction n with
  | zero =>
    intro ws hlen i
    have : ws = [] := List.eq_nil_of_length_eq_zero (Nat.le_zero.mp hlen)
    subst this
    simp [runBatches, mapOutcomes]
  | succ n ih =>
    intro ws hlen i
    match ws with
    | [] => simp [runBatches, mapOutcomes]
    | w :: rest =>
      have hdrop : ((w :: rest).drop BATCH_SIZE).length ≤ n := by
        simp only [List.length_drop, List.length_cons, BATCH_SIZE]
        simp only [List.length_cons] at hlen
        omega
      rw [runBatches, hb i]
      simp only [Bool.false_eq_true, if_false]
      rw [mapBatch_ok env hw, ih _ hdrop (i + BATCH_SIZE)]
      simp only []
      conv_rhs => rw [← List.take_append_drop BATCH_SIZE (w :: rest)]
      rw [mapOutcomes_append]
      rcases Nat.lt_or_ge (w :: rest).length BATCH_SIZE with h5 | h5
      · rw [List.drop_eq_nil_of_le (Nat.le_of_lt h5)]
        simp [mapOutcomes]
      · rw [List.length_take, Nat.min_eq_left h5]

/-! ## Claim C3 -/

/-- C3: when the batch scheduler completes without cancellation (no
scheduler-level poll reports cancelled), the output has the same length as the
input and the entry at every index carries the address and balance of the input
holder at that index, whatever the classification outcomes are. -/
theorem c3_scheduler_preserves_input_order (env : SchedEnv) (ws : List Holder)
    (hb : ∀ j, env.cancelledBeforeBatch j = false)
    (hw : ∀ j, (env.wallet j).cancelledBeforeWallet = false) :
    ∃ rs, runBatches env ws 0 = .ok rs ∧ rs.length = ws.length ∧
      ∀ (k : ℕ) (hk : k < ws.length) (hk2 : k < rs.length),
        (rs.get ⟨k, hk2⟩).address = (ws.get ⟨k, hk⟩).address ∧
        (rs.get ⟨k, hk2⟩).balance = (ws.get ⟨k, hk⟩).balance := by
  refine ⟨mapOutcomes env ws 0, runBatches_ok env hb hw ws.length ws le_rfl 0,
    mapOutcomes_length env ws 0, ?_⟩
  intro k hk hk2
  rw [mapOutcomes_get env ws 0 k hk hk2]
  set w := ws.get ⟨k, hk⟩
  set we := env.wallet (0 + k)
  unfold walletOutcome
  rcases ht : we.timedOut with _ | _
  · rw [if_neg (by simp)]
    rcases ha : analyzeWallet w we.classify with e | cw
    · exact ⟨rfl, rfl⟩
    · exact analyzeWallet_preserves w we.classify cw ha
  · rw [if_pos rfl]
    exact ⟨rfl, rfl⟩

/-- Witness for C3: a concrete seven-holder list (two batches) with assorted
classification outcomes, no cancellation. -/
theorem c3_witness :
    ∃ rs, runBatches
        { wallet := fun j => if j % 2 = 0 then { classify := { signatures := fun _ => some 0 } }
                             else { timedOut := true } }
        [Holder.mk "a" 1, Holder.mk "b" 2, Holder.mk "c" 3, Holder.mk "d" 4,
         Holder.mk "e" 5, Holder.mk "f" 6, Holder.mk "g" 7] 0 = .ok rs ∧
      rs.length = [Holder.mk "a" 1, Holder.mk "b" 2, Holder.mk "c" 3, Holder.mk "d" 4,
         Holder.mk "e" 5, Holder.mk "f" 6, Holder.mk "g" 7].length ∧
      ∀ (k : ℕ) (hk : k < [Holder.mk "a" 1, Holder.mk "b" 2, Holder.mk "c" 3, Holder.mk "d" 4,
         Holder.mk "e" 5, Holder.mk "f" 6, Holder.mk "g" 7].length) (hk2 : k < rs.length),
        (rs.get ⟨k, hk2⟩).address = ([Holder.mk "a" 1, Holder.mk "b" 2, Holder.mk "c" 3,
           Holder.mk "d" 4, Holder.mk "e" 5, Holder.mk "f" 6, Holder.mk "g" 7].get ⟨k, hk⟩).address ∧
        (rs.get ⟨k, hk2⟩).balance = ([Holder.mk "a" 1, Holder.mk "b" 2, Holder.mk "c" 3,
           Holder.mk "d" 4, Holder.mk "e" 5, Holder.mk "f" 6, Holder.mk "g" 7].get ⟨k, hk⟩).balance :=
  c3_scheduler_preserves_input_order _ _ (fun _ => rfl)
    (fun j => by rcases Nat.decEq (j % 2) 0 with h | h <;> simp [h])

/-! ## Substring lemmas for the timeout message -/

theorem listIncludes_nil_pat (l : List Char) : listIncludes [] l = true := by
  induction l with
  | nil => rfl
  | cons c rest ih => simp [listIncludes, List.isPrefixOf]

theorem listIncludes_append_left (pat l1 l2 : List Char)
    (h : listIncludes pat l1 = true) : listIncludes pat (l1 ++ l2) = true := by
  induction l1 with
  | nil =>
    simp only [listIncludes, List.isEmpty_iff] at h
    subst h
    exact listIncludes_nil_pat l2
  | cons c rest ih =>
    simp only [listIncludes, Bool.or_eq_true] at h ⊢
    rcases h with h | h
    · left
      rw [ List.isPrefixOf_iff_prefix] at h ⊢
      exact h.trans (List.prefix_append (c :: rest) l2)
    · right
      exact ih h

theorem strIncludes_timeout (w : Holder) : strIncludes (timeoutMsg w) "timeout" = true := by
  have hbase : listIncludes "timeout".toList "Wallet analysis timeout for ".toList = true := by
    decide
  unfold timeoutMsg strIncludes
  simp only [String.toList, String.data_append]
  exact listIncludes_append_left _ _ _ (listIncludes_append_left _ _ _ hbase)

/-! ## Claim C7 -/

/-- C7: when a batch run completes (no scheduler-level cancellation), a wallet
whose classification loses the race against the 30 s timer is recorded as a
category-`Error` entry whose message is the timeout message (which contains the
substring timeout), while every other wallet is recorded exactly as its own
independent outcome — one timeout never affects its siblings. -/
theorem c7_timeout_is_isolated (env : SchedEnv) (ws : List Holder) (j : ℕ)
    (hb : ∀ k, env.cancelledBeforeBatch k = false)
    (hw : ∀ k, (env.wallet k).cancelledBeforeWallet = false)
    (hj : j < ws.length)
    (ht : (env.wallet j).timedOut = true) :
    ∃ rs, runBatches env ws 0 = .ok rs ∧ rs.length = ws.length ∧
      (∀ hj2 : j < rs.length,
        (rs.get ⟨j, hj2⟩).category = "Error" ∧
        (rs.get ⟨j, hj2⟩).error = some (timeoutMsg (ws.get ⟨j, hj⟩)) ∧
        strIncludes (timeoutMsg (ws.get ⟨j, hj⟩)) "timeout" = true) ∧
      (∀ (k : ℕ) (hk : k < ws.length) (hk2 : k < rs.length), k ≠ j →
        rs.get ⟨k, hk2⟩ = walletOutcome (ws.get ⟨k, hk⟩) (env.wallet k)) := by
  refine ⟨mapOutcomes env ws 0, runBatches_ok env hb hw ws.length ws le_rfl 0,
    mapOutcomes_length env ws 0, ?_, ?_⟩
  · intro hj2
    rw [mapOutcomes_get env ws 0 j hj hj2]
    have h0 : (0 : ℕ) + j = j := by omega
    rw [h0]
    unfold walletOutcome
    rw [if_pos ht]
    exact ⟨rfl, rfl, strIncludes_timeout _⟩
  · intro k hk hk2 hne
    rw [mapOutcomes_get env ws 0 k hk hk2]
    have h0 : (0 : ℕ) + k = k := by omega
    rw [h0]

/-- Witness for C7: a two-batch run of six wallets in which only the wallet at
index 2 times out. -/
theorem c7_witness :
    ∃ rs, runBatches
        { wallet := fun k => if k = 2 then { timedOut := true }
                             else { classify := { signatures := fun _ => some 0 } } }
        [Holder.mk "a" 1, Holder.mk "b" 2, Holder.mk "c" 3,
         Holder.mk "d" 4, Holder.mk "e" 5, Holder.mk "f" 6] 0 = .ok rs ∧
      rs.length = [Holder.mk "a" 1, Holder.mk "b" 2, Holder.mk "c" 3,
         Holder.mk "d" 4, Holder.mk "e" 5, Holder.mk "f" 6].length ∧
      (∀ hj2 : 2 < rs.length,
        (rs.get ⟨2, hj2⟩).category = "Error" ∧
        (rs.get ⟨2, hj2⟩).error = some (timeoutMsg ([Holder.mk "a" 1, Holder.mk "b" 2,
          Holder.mk "c" 3, Holder.mk "d" 4, Holder.mk "e" 5, Holder.mk "f" 6].get
            ⟨2, by norm_num⟩)) ∧
        strIncludes (timeoutMsg ([Holder.mk "a" 1, Holder.mk "b" 2, Holder.mk "c" 3,
          Holder.mk "d" 4, Holder.mk "e" 5, Holder.mk "f" 6].get ⟨2, by norm_num⟩))
          "timeout" = true) ∧
      (∀ (k : ℕ) (hk : k < [Holder.mk "a" 1, Holder.mk "b" 2, Holder.mk "c" 3,
          Holder.mk "d" 4, Holder.mk "e" 5, Holder.mk "f" 6].length) (hk2 : k < rs.length),
        k ≠ 2 →
        rs.get ⟨k, hk2⟩ = walletOutcome ([Holder.mk "a" 1, Holder.mk "b" 2, Holder.mk "c" 3,
          Holder.mk "d" 4, Holder.mk "e" 5, Holder.mk "f" 6].get ⟨k, hk⟩)
          ((fun k => if k = 2 then ({ timedOut := true } : WalletEnv)
                     else { classify := { signatures := fun _ => some 0 } }) k)) :=
  c7_timeout_is_isolated
    { wallet := fun k => if k = 2 then { timedOut := true }
                         else { classify := { signatures := fun _ => some 0 } } }
    _ 2 (fun _ => rfl)
    (fun k => by rcases Nat.decEq k 2 with h | h <;> simp [h])
    (by norm_num) (by norm_num)

/-! ## Run-level lemmas -/

theorem analyzeTeamSupplyBody_no_ok (tok : String) (env : RunEnv)
    (hc : env.cancelBeforeSupplyCalc = true) (r : AnalysisResult) :
    analyzeTeamSupplyBody tok env ≠ .ok r := by
  intro h
  unfold analyzeTeamSupplyBody at h
  repeat' split at h
  all_goals simp_all

theorem analyzeTeamSupply_error_of_body_error (tok : String) (env : RunEnv) (e0 : String)
    (h : analyzeTeamSupplyBody tok env = .error e0) :
    ∃ e, analyzeTeamSupply tok env = .error e := by
  unfold analyzeTeamSupply
  rw [h]
  rcases hc : env.cancelledInCatch with _ | _ <;> simp [hc]

/-! ## Claim C8 -/

/-- C8: when the token info is unavailable the run rejects, and when the
cancellation token reports cancelled at a poll point the run rejects with the
cancellation error and no `AnalysisResult` is produced.  The token of the
source program is monotone over time: once it reports cancelled, every later
poll also reports cancelled.  The last polls of a run are the
`checkCancellation()` before the supply calculation and the poll inside the
final `catch`, so a token that reports cancelled at any poll point reports
cancelled at those two; under exactly that consequence the run always rejects
with the cancellation message. -/
theorem c8_fatal_paths_reject (tok : String) (env : RunEnv) :
    (env.assetInfo = none → ∃ e, analyzeTeamSupply tok env = .error e)
    ∧ (env.cancelBeforeSupplyCalc = true → env.cancelledInCatch = true →
        analyzeTeamSupply tok env = .error cancelMsg) := by
  constructor
  · intro hA
    have hbody : ∃ e0, analyzeTeamSupplyBody tok env = .error e0 := by
      unfold analyzeTeamSupplyBody
      rcases hs : env.cancelAtStart with _ | _ <;> simp [hs, hA]
    obtain ⟨e0, hbody⟩ := hbody
    exact analyzeTeamSupply_error_of_body_error tok env e0 hbody
  · intro hc hcc
    rcases hbody : analyzeTeamSupplyBody tok env with e0 | r
    · unfold analyzeTeamSupply
      rw [hbody]
      simp [hcc]
    · exact absurd hbody (analyzeTeamSupplyBody_no_ok tok env hc r)

/-- Holders used by the C8 witness: twenty significant holders, forming four
batches of five. -/
def c8Holders : List Holder := (List.range 20).map (fun k => Holder.mk (Nat.repr k) 1)

/-- C8 witness environment: the token reports cancelled from the third batch on
(after the second of four batches) and at every later poll. -/
def c8EnvB : RunEnv where
  assetInfo := some { totalSupply := 20 }
  holders := c8Holders
  cancelBeforeSupplyCalc := true
  cancelledInCatch := true
  sched := { cancelledBeforeBatch := fun i => decide (10 ≤ i) }

/-- Witness for C8 at concrete inputs: a run without token info rejects, and a
twenty-holder run whose token reports cancelled after the second of four
batches rejects with the cancellation error. -/
theorem c8_witness :
    (∃ e, analyzeTeamSupply "T" {} = .error e)
    ∧ analyzeTeamSupply "T" c8EnvB = .error cancelMsg :=
  ⟨(c8_fatal_paths_reject "T" {}).1 rfl,
   (c8_fatal_paths_reject "T" c8EnvB).2 rfl rfl⟩

/-! ## Claim C9 -/

/-- C9: the two output views of every successful run are built from the same
classified-wallet data and agree: the analyzed-wallet lists, the team-wallet
lists and the controlled-supply percentages of `scanData` and `trackingInfo`
are equal. -/
theorem c9_views_agree (tok : String) (env : RunEnv) (r : AnalysisResult)
    (h : analyzeTeamSupply tok env = .ok r) :
    r.scanData.analyzedWallets = r.trackingInfo.allWalletsDetails ∧
    r.scanData.teamWallets = r.trackingInfo.teamWallets ∧
    r.scanData.totalSupplyControlled = r.trackingInfo.totalSupplyControlled := by
  unfold analyzeTeamSupply at h
  rcases hb : analyzeTeamSupplyBody tok env with e | r' <;> rw [hb] at h
  · rcases hc : env.cancelledInCatch with _ | _ <;> simp [hc] at h
  · simp only [Except.ok.injEq] at h
    subst h
    unfold analyzeTeamSupplyBody at hb
    repeat' split at hb
    all_goals try exact Except.noConfusion hb
    simp only [Except.ok.injEq] at hb
    subst hb
    exact ⟨rfl, rfl, rfl⟩

/-- C9 witness environment: a successful run with token supply 5 and no
holders. -/
def c9Env : RunEnv where
  assetInfo := some { totalSupply := 5 }
  holders := []

/-- Result of the C9 witness run. -/
def c9Res : AnalysisResult where
  scanData :=
    { tokenInfo := { totalSupply := 5, symbol := "", name := "", decimals := 0, address := "T" }
    , analyzedWallets := []
    , teamWallets := []
    , totalSupplyControlled := 0
    , tokenAddress := "T" }
  trackingInfo :=
    { tokenAddress := "T", tokenSymbol := "", totalSupply := 5, decimals := 0
    , totalSupplyControlled := 0, teamWallets := [], allWalletsDetails := [] }

/-- Witness for C9: the concrete successful run has agreeing views. -/
theorem c9_witness :
    ∃ r, analyzeTeamSupply "T" c9Env = .ok r ∧
      r.scanData.analyzedWallets = r.trackingInfo.allWalletsDetails ∧
      r.scanData.teamWallets = r.trackingInfo.teamWallets ∧
      r.scanData.totalSupplyControlled = r.trackingInfo.totalSupplyControlled := by
  have h : analyzeTeamSupply "T" c9Env = .ok c9Res := by
    unfold analyzeTeamSupply analyzeTeamSupplyBody c9Env c9Res
    simp [significantHoldersOf, runBatches, totalSupplyControlledOf, teamSupplyHeld,
      jsToNumber, bnDiv, bnMulNat, bnOfNat]
  exact ⟨c9Res, h, c9_views_agree "T" c9Env c9Res h⟩

/-! ## Claim C2 -/

theorem bnRatio_iff (bal T : ℕ) (hT : 0 < T) :
    (SUPPLY_THRESHOLD ≤ bnDiv (bnOfNat bal) (bnOfNat T)) ↔
      (1 : ℚ) / 1000 ≤ (bal : ℚ) / (T : ℚ) := by
  unfold SUPPLY_THRESHOLD bnDiv bnOfNat bnScale
  rw [Nat.mul_div_mul_right _ _ (by norm_num : (0:ℕ) < 10 ^ 18)]
  have h15 : (10 : ℕ) ^ 18 / 1000 = 10 ^ 15 := by norm_num
  rw [h15, Nat.le_div_iff_mul_le hT]
  rw [div_le_div_iff₀ (by norm_num) (by exact_mod_cast hT : (0:ℚ) < T)]
  constructor
  · intro h
    have hc : ((10 ^ 15 * T : ℕ) : ℚ) ≤ ((bal * 10 ^ 18 : ℕ) : ℚ) := by exact_mod_cast h
    push_cast at hc
    linarith
  · intro h
    have h2 : ((T : ℚ)) ≤ ((bal * 1000 : ℕ) : ℚ) := by push_cast; linarith
    have hn : T ≤ bal * 1000 := by exact_mod_cast h2
    calc 10 ^ 15 * T ≤ 10 ^ 15 * (bal * 1000) := Nat.mul_le_mul_left _ hn
      _ = bal * 10 ^ 18 := by ring

theorem significantFilter_iff (T : ℕ) (h : Holder) (hT : 0 < T) :
    significantFilter T h = true ↔
      (h.address ∉ KNOWN_LP_POOLS ∧ (1 : ℚ) / 1000 ≤ (h.balance : ℚ) / (T : ℚ)) := by
  unfold significantFilter
  rcases hp : KNOWN_LP_POOLS.contains h.address with _ | _
  · rw [if_neg (by simp [hp])]
    have hmem : h.address ∉ KNOWN_LP_POOLS := by simpa using hp
    simp only [hmem, not_false_iff, true_and]
    rw [decide_eq_true_iff]
    exact bnRatio_iff h.balance T hT
  · rw [if_pos (by simp [hp])]
    have hmem : h.address ∈ KNOWN_LP_POOLS := by simpa using hp
    simp [hmem]

/-- C2: a holder belongs to the significant-holder list precisely when it is
among the fetched holders, its address is not one of the fixed known
liquidity pools, and its balance is at least 0.1 percent of the total supply;
the 18-fractional-digit truncating BigNumber division used by the filter keeps
a holder at exactly 0.1 percent and the pool exclusion drops a pool address
regardless of balance. -/
theorem c2_significant_holder_characterization (holders : List Holder) (T : ℕ)
    (h : Holder) (hT : 0 < T) :
    h ∈ significantHoldersOf holders T ↔
      h ∈ holders ∧ h.address ∉ KNOWN_LP_POOLS ∧
        (1 : ℚ) / 1000 ≤ (h.balance : ℚ) / (T : ℚ) := by
  unfold significantHoldersOf
  rw [List.mem_filter, significantFilter_iff T h hT]

/-- Witness for C2 at total supply 1000000: a holder at 0.2 percent is kept, a
holder at exactly 0.1 percent is kept, a holder at 0.05 percent is dropped, and
a known-pool address holding 30 percent is dropped. -/
theorem c2_witness :
    (Holder.mk "alpha" 2000 ∈ significantHoldersOf
        [Holder.mk "alpha" 2000, Holder.mk "beta" 1000, Holder.mk "gamma" 500,
         Holder.mk "5Q544fKrFoe6tsEbD7S8EmxGTJYAKtTVhAW5Q5pge4j1" 300000] 1000000)
    ∧ (Holder.mk "beta" 1000 ∈ significantHoldersOf
        [Holder.mk "alpha" 2000, Holder.mk "beta" 1000, Holder.mk "gamma" 500,
         Holder.mk "5Q544fKrFoe6tsEbD7S8EmxGTJYAKtTVhAW5Q5pge4j1" 300000] 1000000)
    ∧ (Holder.mk "gamma" 500 ∉ significantHoldersOf
        [Holder.mk "alpha" 2000, Holder.mk "beta" 1000, Holder.mk "gamma" 500,
         Holder.mk "5Q544fKrFoe6tsEbD7S8EmxGTJYAKtTVhAW5Q5pge4j1" 300000] 1000000)
    ∧ (Holder.mk "5Q544fKrFoe6tsEbD7S8EmxGTJYAKtTVhAW5Q5pge4j1" 300000 ∉ significantHoldersOf
        [Holder.mk "alpha" 2000, Holder.mk "beta" 1000, Holder.mk "gamma" 500,
         Holder.mk "5Q544fKrFoe6tsEbD7S8EmxGTJYAKtTVhAW5Q5pge4j1" 300000] 1000000) :=
  ⟨(c2_significant_holder_characterization _ 1000000 _ (by norm_num)).mpr
      ⟨by simp, by decide, by norm_num⟩,
   (c2_significant_holder_characterization _ 1000000 _ (by norm_num)).mpr
      ⟨by simp, by decide, by norm_num⟩,
   fun hmem => by
     have := (c2_significant_holder_characterization _ 1000000 _ (by norm_num)).mp hmem
     norm_num at this,
   fun hmem => by
     have := (c2_significant_holder_characterization _ 1000000 _ (by norm_num)).mp hmem
     exact absurd this.2.1 (by simp [KNOWN_LP_POOLS])⟩

/-! ## Claim C1 -/

theorem foldl_bnPlus (l : List ClassifiedWallet) (acc : ℕ) :
    l.foldl (fun a w => bnPlus a (bnOfNat w.balance)) acc =
      acc + (l.map (fun w => w.balance)).sum * bnScale := by
  induction l generalizing acc with
  | nil => simp
  | cons w rest ih =>
    simp only [List.foldl, List.map, List.sum_cons]
    rw [ih]
    unfold bnPlus bnOfNat
    ring

theorem teamSupplyHeld_eq (ws : List ClassifiedWallet) :
    teamSupplyHeld ws = bnOfNat (teamBalanceSum ws) := by
  unfold teamSupplyHeld teamBalanceSum
  rw [foldl_bnPlus]
  simp [bnOfNat]

/-- C1 amended: for every run that completes successfully with a positive total
supply, the returned `totalSupplyControlled` is the IEEE-754 binary64 reading
(`BigNumber.toNumber`) of the exact fixed-point value
`(Σ balances of team-category wallets / totalSupply) * 100`, where the sum is
exact and the division is the 18-fractional-digit truncating BigNumber
division; the decimal aggregation itself is exact and only the final
`toNumber` conversion can round, so whenever that value is exactly
representable as a binary64 — in particular 100 for totalSupply 3 with three
team holders of balance 1 — the returned value is exact. -/
theorem c1_supply_controlled_formula (tok : String) (env : RunEnv) (r : AnalysisResult)
    (hok : analyzeTeamSupply tok env = .ok r)
    (hT : 0 < r.scanData.tokenInfo.totalSupply) :
    r.scanData.totalSupplyControlled =
      jsToNumber (bnMulNat (bnDiv (bnOfNat (teamBalanceSum r.scanData.analyzedWallets))
        (bnOfNat r.scanData.tokenInfo.totalSupply)) 100) := by
  unfold analyzeTeamSupply at hok
  rcases hb : analyzeTeamSupplyBody tok env with e | r' <;> rw [hb] at hok
  · rcases hc : env.cancelledInCatch with _ | _ <;> simp [hc] at hok
  · simp only [Except.ok.injEq] at hok
    subst hok
    unfold analyzeTeamSupplyBody at hb
    repeat' split at hb
    all_goals try exact Except.noConfusion hb
    simp only [Except.ok.injEq] at hb
    subst hb
    simp only [totalSupplyControlledOf, teamSupplyHeld_eq]

theorem jsToNumber_eval_100 : jsToNumber 100000000000000000000 = 100 := by
  have he : floorLog2 100000000000000000000 bnScale = 6 := by decide
  have hm : roundHalfEven 7036874417766400000000000000000000 bnScale = 7036874417766400 := by
    decide
  have ht : (46 : ℤ).toNat = 46 := rfl
  unfold jsToNumber nearestFloat
  rw [if_neg (by norm_num), he]
  norm_num [ht, hm]

theorem jsToNumber_eval_third :
    jsToNumber 33333333333333333300 = (4691249611844267 : ℚ) * (2 : ℚ) ^ (-47 : ℤ) := by
  have he : floorLog2 33333333333333333300 bnScale = 5 := by decide
  have hm : roundHalfEven 4691249611844266661975417054822400 bnScale = 4691249611844267 := by
    decide
  have ht : (47 : ℤ).toNat = 47 := rfl
  unfold jsToNumber nearestFloat
  rw [if_neg (by norm_num), he]
  norm_num [ht, hm]

/-- Classification environment of the C1 runs: every signature query returns
zero signatures, so every wallet is fresh. -/
def freshClassify : ClassifyEnv := { signatures := fun _ => some 0 }

/-- Scheduler environment of the C1 runs: no cancellation, no timeout, fresh
wallets. -/
def freshSched : SchedEnv := { wallet := fun _ => { classify := freshClassify } }

/-- Run environment of the C1 witness: total supply 3, three fresh
(team-category) holders of balance 1 each. -/
def c1WitnessEnv : RunEnv where
  assetInfo := some { totalSupply := 3 }
  holders := [Holder.mk "team1" 1, Holder.mk "team2" 1, Holder.mk "team3" 1]
  sched := freshSched

/-- Result of the C1 witness run. -/
def c1WitnessRes : AnalysisResult where
  scanData :=
    { tokenInfo := { totalSupply := 3, symbol := "", name := "", decimals := 0, address := "T" }
    , analyzedWallets :=
        [ClassifiedWallet.mk "team1" 1 "Fresh" none none none none,
         ClassifiedWallet.mk "team2" 1 "Fresh" none none none none,
         ClassifiedWallet.mk "team3" 1 "Fresh" none none none none]
    , teamWallets :=
        [TeamWallet.mk "team1" (Nat.repr 1) (jsToNumber 33333333333333333300) "Fresh" none none,
         TeamWallet.mk "team2" (Nat.repr 1) (jsToNumber 33333333333333333300) "Fresh" none none,
         TeamWallet.mk "team3" (Nat.repr 1) (jsToNumber 33333333333333333300) "Fresh" none none]
    , totalSupplyControlled := jsToNumber 100000000000000000000
    , tokenAddress := "T" }
  trackingInfo :=
    { tokenAddress := "T", tokenSymbol := "", totalSupply := 3, decimals := 0
    , totalSupplyControlled := jsToNumber 100000000000000000000
    , teamWallets :=
        [TeamWallet.mk "team1" (Nat.repr 1) (jsToNumber 33333333333333333300) "Fresh" none none,
         TeamWallet.mk "team2" (Nat.repr 1) (jsToNumber 33333333333333333300) "Fresh" none none,
         TeamWallet.mk "team3" (Nat.repr 1) (jsToNumber 33333333333333333300) "Fresh" none none]
    , allWalletsDetails :=
        [ClassifiedWallet.mk "team1" 1 "Fresh" none none none none,
         ClassifiedWallet.mk "team2" 1 "Fresh" none none none none,
         ClassifiedWallet.mk "team3" 1 "Fresh" none none none none] }

theorem c1w_runBatches : runBatches freshSched
    [Holder.mk "team1" 1, Holder.mk "team2" 1, Holder.mk "team3" 1] 0 =
    .ok [ClassifiedWallet.mk "team1" 1 "Fresh" none none none none,
         ClassifiedWallet.mk "team2" 1 "Fresh" none none none none,
         ClassifiedWallet.mk "team3" 1 "Fresh" none none none none] := by
  rw [runBatches_ok freshSched (fun _ => rfl) (fun _ => rfl) 3 _ (by norm_num) 0]
  rfl

theorem c1w_body : analyzeTeamSupplyBody "T" c1WitnessEnv = .ok c1WitnessRes := by
  unfold analyzeTeamSupplyBody c1WitnessEnv c1WitnessRes
  simp only []
  rw [show significantHoldersOf [Holder.mk "team1" 1, Holder.mk "team2" 1, Holder.mk "team3" 1] 3 =
    [Holder.mk "team1" 1, Holder.mk "team2" 1, Holder.mk "team3" 1] from rfl]
  rw [c1w_runBatches]
  simp only [totalSupplyControlledOf, teamSupplyHeld, teamWalletOf, bnMulNat, bnDiv, bnOfNat,
    bnPlus, bnScale, List.filter, List.foldl, List.map, isTeamWalletCategory]
  norm_num

/-- Witness for the amended C1: in the flagship exact-decimal scenario
(totalSupply 3, three team-category holders of balance 1 each), the run
succeeds, the formula of the amended claim holds, and the returned
`totalSupplyControlled` is exactly 100. -/
theorem c1_witness :
    ∃ r, analyzeTeamSupply "T" c1WitnessEnv = .ok r ∧
      0 < r.scanData.tokenInfo.totalSupply ∧
      r.scanData.totalSupplyControlled =
        jsToNumber (bnMulNat (bnDiv (bnOfNat (teamBalanceSum r.scanData.analyzedWallets))
          (bnOfNat r.scanData.tokenInfo.totalSupply)) 100) ∧
      r.scanData.totalSupplyControlled = 100 := by
  have hok : analyzeTeamSupply "T" c1WitnessEnv = .ok c1WitnessRes := by
    unfold analyzeTeamSupply
    rw [c1w_body]
  refine ⟨c1WitnessRes, hok, by decide,
    c1_supply_controlled_formula "T" c1WitnessEnv c1WitnessRes hok (by decide), ?_⟩
  show jsToNumber 100000000000000000000 = 100
  exact jsToNumber_eval_100

/-- Run environment of the C1 counterexample: total supply 3, one fresh
(team-category) holder of balance 1. -/
def c1CounterEnv : RunEnv where
  assetInfo := some { totalSupply := 3 }
  holders := [Holder.mk "team1" 1]
  sched := freshSched

/-- Result of the C1 counterexample run. -/
def c1CounterRes : AnalysisResult where
  scanData :=
    { tokenInfo := { totalSupply := 3, symbol := "", name := "", decimals := 0, address := "T" }
    , analyzedWallets := [ClassifiedWallet.mk "team1" 1 "Fresh" none none none none]
    , teamWallets :=
        [TeamWallet.mk "team1" (Nat.repr 1) (jsToNumber 33333333333333333300) "Fresh" none none]
    , totalSupplyControlled := jsToNumber 33333333333333333300
    , tokenAddress := "T" }
  trackingInfo :=
    { tokenAddress := "T", tokenSymbol := "", totalSupply := 3, decimals := 0
    , totalSupplyControlled := jsToNumber 33333333333333333300
    , teamWallets :=
        [TeamWallet.mk "team1" (Nat.repr 1) (jsToNumber 33333333333333333300) "Fresh" none none]
    , allWalletsDetails := [ClassifiedWallet.mk "team1" 1 "Fresh" none none none none] }

theorem c1cx_runBatches : runBatches freshSched [Holder.mk "team1" 1] 0 =
    .ok [ClassifiedWallet.mk "team1" 1 "Fresh" none none none none] := by
  rw [runBatches_ok freshSched (fun _ => rfl) (fun _ => rfl) 1 _ (by norm_num) 0]
  rfl

theorem c1cx_body : analyzeTeamSupplyBody "T" c1CounterEnv = .ok c1CounterRes := by
  unfold analyzeTeamSupplyBody c1CounterEnv c1CounterRes
  simp only []
  rw [show significantHoldersOf [Holder.mk "team1" 1] 3 = [Holder.mk "team1" 1] from rfl]
  rw [c1cx_runBatches]
  simp only [totalSupplyControlledOf, teamSupplyHeld, teamWalletOf, bnMulNat, bnDiv, bnOfNat,
    bnPlus, bnScale, List.filter, List.foldl, List.map, isTeamWalletCategory]
  norm_num

/-- C1 counterexample: a successful run with totalSupply 3 and a single
team-category holder of balance 1 returns a `totalSupplyControlled` that
differs both from the exact 18-digit fixed-precision value
`100 * trunc(1/3) = 333333333333333333/10^16` and from the exact rational
`100/3`: the final `toNumber` conversion rounds the decimal value to the
nearest binary64, so the returned value is not the exact fixed-precision
decimal result claimed. -/
theorem c1_counterexample :
    ∃ r, analyzeTeamSupply "T" c1CounterEnv = .ok r ∧
      r.scanData.analyzedWallets.map (fun w => w.category) = ["Fresh"] ∧
      teamBalanceSum r.scanData.analyzedWallets = 1 ∧
      r.scanData.tokenInfo.totalSupply = 3 ∧
      r.scanData.totalSupplyControlled ≠ (333333333333333333 : ℚ) / 10 ^ 16 ∧
      r.scanData.totalSupplyControlled ≠ (100 : ℚ) / 3 := by
  have hok : analyzeTeamSupply "T" c1CounterEnv = .ok c1CounterRes := by
    unfold analyzeTeamSupply
    rw [c1cx_body]
  refine ⟨c1CounterRes, hok, rfl, by decide, by decide, ?_, ?_⟩
  · show jsToNumber 33333333333333333300 ≠ (333333333333333333 : ℚ) / 10 ^ 16
    rw [jsToNumber_eval_third]
    norm_num
  · show jsToNumber 33333333333333333300 ≠ (100 : ℚ) / 3
    rw [jsToNumber_eval_third]
    norm_num

end TeamSupply
